import Mathlib

/-!
Shallow embedding of the request-validation component of obs-websocket
(src/requesthandler/rpc/Request.cpp) and proofs about its validators.

The validators are pure functions of the constructed request, the external
resource system, and their parameters.  The C++ out-parameters statusCode and
comment are modelled by also returning the ordered list of assignments a call
performs on them (empty on paths that never write).  Reference counting of
externally owned handles is modelled by returning the net number of source and
scene-item references acquired minus released during the call.
-/

namespace ObsWs

/-- JSON values as in nlohmann::json, the type of the request data document.
Integer and floating-point numbers are both carried as exact rationals, which
preserves the ordering comparisons the validators perform on them. -/
inductive Json where
  | null : Json
  | bool (b : Bool) : Json
  | num (q : ℚ) : Json
  | str (s : String) : Json
  | arr (elems : List Json) : Json
  | obj (fields : List (String × Json)) : Json

/-- Test for the object (mapping) type, as json::is_object. -/
def Json.isObject : Json → Bool
  | .obj _ => true
  | _ => false

/-- Test for the null type, as json::is_null. -/
def Json.isNull : Json → Bool
  | .null => true
  | _ => false

/-- Test for a numeric value, as json::is_number (integer or floating). -/
def Json.isNumber : Json → Bool
  | .num _ => true
  | _ => false

/-- Test for a string value, as json::is_string. -/
def Json.isString : Json → Bool
  | .str _ => true
  | _ => false

/-- Test for a boolean value, as json::is_boolean. -/
def Json.isBoolean : Json → Bool
  | .bool _ => true
  | _ => false

/-- Test for an array value, as json::is_array. -/
def Json.isArray : Json → Bool
  | .arr _ => true
  | _ => false

/-- Key lookup in an object document; non-objects have no keys. -/
def Json.lookup : Json → String → Option Json
  | .obj fields, k => fields.lookup k
  | _, _ => none

/-- Key membership, as json::contains. -/
def Json.contains (j : Json) (k : String) : Bool := (j.lookup k).isSome

/-- Value read by operator[] on the request data.  The validators only read a
key after ValidateBasic has established its presence; a missing key defaults
to null here. -/
def Json.get (j : Json) (k : String) : Json := (j.lookup k).getD Json.null

/-- Numeric value of a number document (conversion to double). -/
def Json.asNumber : Json → ℚ
  | .num q => q
  | _ => 0

/-- String value of a string document (get of std::string). -/
def Json.asString : Json → String
  | .str s => s
  | _ => ""

/-- Emptiness as json::empty: count zero for containers, true for null, false
for other primitives.  The validators only apply it to objects and arrays. -/
def Json.isEmptyVal : Json → Bool
  | .null => true
  | .obj fields => fields.isEmpty
  | .arr elems => elems.isEmpty
  | _ => false

/-- Conversion to int64_t as nlohmann's get on a numeric document: an
integer-stored value is returned exactly and a floating value is
static_cast to int64_t, i.e. truncated toward zero. -/
def Json.toInt64 : Json → ℤ
  | .num q => q.num.tdiv (q.den : ℤ)
  | _ => 0

/-- Status codes written by the validators, from the RequestStatus
enumeration.  Success-like members are included so that the failure codes are
a proper subset of the enumeration. -/
inductive RequestStatus where
  | Unknown
  | NoError
  | Success
  | MissingRequestData
  | MissingRequestParameter
  | InvalidRequestParameterType
  | RequestParameterOutOfRange
  | RequestParameterEmpty
  | ResourceNotFound
  | InvalidResourceType
  deriving DecidableEq

/-- One assignment of the caller-supplied statusCode and comment slots. -/
abbrev Write := RequestStatus × String

/-- The constructed request: per-session context plus normalized data. -/
structure Request where
  RpcVersion : ℕ
  IgnoreNonFatalRequestChecks : Bool
  RequestType : String
  RequestData : Json

/-- Normalization applied at construction: a non-object payload is replaced by
an empty object so that all key lookups are safe. -/
def GetDefaultJsonObject (requestData : Json) : Json :=
  if requestData.isObject = false then Json.obj [] else requestData

/-- The Request constructor: copies the session context (protocol version and
leniency flag), the request type, and the normalized request data. -/
def Request.construct (rpcVersion : ℕ) (ignoreNonFatalRequestChecks : Bool)
    (requestType : String) (requestData : Json) : Request :=
  ⟨rpcVersion, ignoreNonFatalRequestChecks, requestType,
    GetDefaultJsonObject requestData⟩

/-- Modelled from the spec: HasRequestData is declared in Request.h, which is
not among the provided sources.  Per the spec it defensively re-checks that
the request data is a valid mapping (object). -/
def Request.HasRequestData (r : Request) : Bool := r.RequestData.isObject

/-- Comment written by ValidateBasic when a parameter is missing or null. -/
def missingParamComment (keyName : String) : String :=
  "Your request is missing the `" ++ keyName ++ "` parameter."

/-- Request::ValidateBasic: the universal presence gate. -/
def Request.ValidateBasic (r : Request) (keyName : String) : Bool × List Write :=
  if r.HasRequestData = false then
    (false, [(RequestStatus.MissingRequestData,
      "Your request data is missing or invalid (non-object)")])
  else if r.RequestData.contains keyName = false ∨ (r.RequestData.get keyName).isNull = true then
    (false, [(RequestStatus.MissingRequestParameter, missingParamComment keyName)])
  else
    (true, [])

/-- Decimal rendering of a double bound as std::to_string: fixed notation
with six fractional digits, rounded to nearest.  The scaled magnitude
floor(abs(q) * 1000000 + 1/2) is computed directly on the numerator and
denominator by natural division. -/
def fmtFixed6 (q : ℚ) : String :=
  let scaled : ℕ := (q.num.natAbs * 2000000 + q.den) / (2 * q.den)
  let ip := scaled / 1000000
  let fp := scaled % 1000000
  let fpStr := toString fp
  let pad := String.mk (List.replicate (6 - fpStr.length) '0')
  (if q < 0 then "-" else "") ++ toString ip ++ "." ++ pad ++ fpStr

/-- Comment written by ValidateNumber below the minimum bound. -/
def belowComment (keyName : String) (minValue : ℚ) : String :=
  "The parameter `" ++ keyName ++ "` is below the minimum of `"
    ++ fmtFixed6 minValue ++ "`"

/-- Comment written by ValidateNumber above the maximum bound. -/
def aboveComment (keyName : String) (maxValue : ℚ) : String :=
  "The parameter `" ++ keyName ++ "` is above the maximum of `"
    ++ fmtFixed6 maxValue ++ "`"

/-- Request::ValidateNumber.  The optional bounds model the default arguments
declared in Request.h (absent from src): a missing bound is the spec's
"effectively unbounded" default, whose comparison in the source never
succeeds. -/
def Request.ValidateNumber (r : Request) (keyName : String)
    (minValue maxValue : Option ℚ) : Bool × List Write :=
  if (r.ValidateBasic keyName).1 = false then (false, (r.ValidateBasic keyName).2)
  else if (r.RequestData.get keyName).isNumber = false then
    (false, (r.ValidateBasic keyName).2 ++ [(RequestStatus.InvalidRequestParameterType,
      "The parameter `" ++ keyName ++ "` must be a number.")])
  else
    match minValue, maxValue with
    | some mn, some mx =>
      if (r.RequestData.get keyName).asNumber < mn then
        (false, (r.ValidateBasic keyName).2
          ++ [(RequestStatus.RequestParameterOutOfRange, belowComment keyName mn)])
      else if mx < (r.RequestData.get keyName).asNumber then
        (false, (r.ValidateBasic keyName).2
          ++ [(RequestStatus.RequestParameterOutOfRange, aboveComment keyName mx)])
      else (true, [])
    | some mn, none =>
      if (r.RequestData.get keyName).asNumber < mn then
        (false, (r.ValidateBasic keyName).2
          ++ [(RequestStatus.RequestParameterOutOfRange, belowComment keyName mn)])
      else (true, [])
    | none, some mx =>
      if mx < (r.RequestData.get keyName).asNumber then
        (false, (r.ValidateBasic keyName).2
          ++ [(RequestStatus.RequestParameterOutOfRange, aboveComment keyName mx)])
      else (true, [])
    | none, none => (true, [])

/-- Request::ValidateString. -/
def Request.ValidateString (r : Request) (keyName : String) (allowEmpty : Bool) :
    Bool × List Write :=
  if (r.ValidateBasic keyName).1 = false then (false, (r.ValidateBasic keyName).2)
  else if (r.RequestData.get keyName).isString = false then
    (false, (r.ValidateBasic keyName).2 ++ [(RequestStatus.InvalidRequestParameterType,
      "The parameter `" ++ keyName ++ "` must be a string.")])
  else if (r.RequestData.get keyName).asString = "" ∧ allowEmpty = false then
    (false, (r.ValidateBasic keyName).2 ++ [(RequestStatus.RequestParameterEmpty,
      "The parameter `" ++ keyName ++ "` must not be empty.")])
  else (true, [])

/-- Request::ValidateBoolean. -/
def Request.ValidateBoolean (r : Request) (keyName : String) : Bool × List Write :=
  if (r.ValidateBasic keyName).1 = false then (false, (r.ValidateBasic keyName).2)
  else if (r.RequestData.get keyName).isBoolean = false then
    (false, (r.ValidateBasic keyName).2 ++ [(RequestStatus.InvalidRequestParameterType,
      "The parameter `" ++ keyName ++ "` must be boolean.")])
  else (true, [])

/-- Request::ValidateObject. -/
def Request.ValidateObject (r : Request) (keyName : String) (allowEmpty : Bool) :
    Bool × List Write :=
  if (r.ValidateBasic keyName).1 = false then (false, (r.ValidateBasic keyName).2)
  else if (r.RequestData.get keyName).isObject = false then
    (false, (r.ValidateBasic keyName).2 ++ [(RequestStatus.InvalidRequestParameterType,
      "The parameter `" ++ keyName ++ "` must be an object.")])
  else if (r.RequestData.get keyName).isEmptyVal = true ∧ allowEmpty = false then
    (false, (r.ValidateBasic keyName).2 ++ [(RequestStatus.RequestParameterEmpty,
      "The parameter `" ++ keyName ++ "` must not be empty.")])
  else (true, [])

/-- Request::ValidateArray. -/
def Request.ValidateArray (r : Request) (keyName : String) (allowEmpty : Bool) :
    Bool × List Write :=
  if (r.ValidateBasic keyName).1 = false then (false, (r.ValidateBasic keyName).2)
  else if (r.RequestData.get keyName).isArray = false then
    (false, (r.ValidateBasic keyName).2 ++ [(RequestStatus.InvalidRequestParameterType,
      "The parameter `" ++ keyName ++ "` must be an array.")])
  else if (r.RequestData.get keyName).isEmptyVal = true ∧ allowEmpty = false then
    (false, (r.ValidateBasic keyName).2 ++ [(RequestStatus.RequestParameterEmpty,
      "The parameter `" ++ keyName ++ "` must not be empty.")])
  else (true, [])

/-- Source kinds returned by obs_source_get_type. -/
inductive ObsSourceType where
  | input
  | filter
  | transition
  | scene
  deriving DecidableEq

/-- A scene item of the host resource model, addressed by an integer id. -/
structure SceneItem where
  id : ℤ
  deriving DecidableEq

/-- Modelled from the spec: an externally owned source of the host resource
model, as exposed by the collaborator interface of the spec (lookup by name,
kind introspection, group flag, scene container holding items). -/
structure ObsSource where
  name : String
  type : ObsSourceType
  isGroup : Bool
  items : List SceneItem
  deriving DecidableEq

/-- Modelled from the spec: the external resource system, a collection of
sources supporting lookup by name. -/
structure ObsWorld where
  sources : List ObsSource

/-- Modelled from the spec: lookup_source_by_name of the resource system.
On success the caller receives a new reference to the source. -/
def obs_get_source_by_name (w : ObsWorld) (name : String) : Option ObsSource :=
  w.sources.find? (fun s => s.name == name)

/-- Modelled from the spec: get_kind of the resource system. -/
def obs_source_get_type (s : ObsSource) : ObsSourceType := s.type

/-- Modelled from the spec: is_group of the resource system. -/
def obs_source_is_group (s : ObsSource) : Bool := s.isGroup

/-- Modelled from the spec: scene_container_of the resource system; obtaining
the container takes no reference. -/
def obs_scene_from_source (s : ObsSource) : List SceneItem := s.items

/-- Modelled from the spec: find_item_by_id of the resource system; the item
found is borrowed until obs_sceneitem_addref acquires a reference to it. -/
def obs_scene_find_sceneitem_by_id (scene : List SceneItem) (id : ℤ) : Option SceneItem :=
  scene.find? (fun item => item.id == id)

/-- Result of a resource validator: the optional handle, the ordered list of
writes to the statusCode/comment slots, and the net number of source and
scene-item references acquired minus released during the call. -/
structure ResResult (α : Type) where
  res : Option α
  writes : List Write
  srcRefs : ℤ
  itemRefs : ℤ
  deriving DecidableEq

/-- Request::ValidateSource.  The allowEmpty argument of the inner
ValidateString call is Request.h's default, modelled from the spec as false;
a successful lookup hands the caller one source reference. -/
def Request.ValidateSource (r : Request) (w : ObsWorld) (keyName : String) :
    ResResult ObsSource :=
  if (r.ValidateString keyName false).1 = false then
    ⟨none, (r.ValidateString keyName false).2, 0, 0⟩
  else
    match obs_get_source_by_name w ((r.RequestData.get keyName).asString) with
    | none =>
      ⟨none, (r.ValidateString keyName false).2 ++ [(RequestStatus.ResourceNotFound,
        "No source was found by the name of `"
          ++ (r.RequestData.get keyName).asString ++ "`.")], 0, 0⟩
    | some ret => ⟨some ret, (r.ValidateString keyName false).2, 1, 0⟩

/-- Scene filter modes of ValidateScene. -/
inductive ObsWebSocketSceneFilter where
  | SceneOnly
  | GroupOnly
  | SceneOrGroup
  deriving DecidableEq

/-- Request::ValidateScene.  Each failing check after the source resolution
releases the acquired source reference before returning null. -/
def Request.ValidateScene (r : Request) (w : ObsWorld) (keyName : String)
    (filter : ObsWebSocketSceneFilter) : ResResult ObsSource :=
  match r.ValidateSource w keyName with
  | ⟨none, ws, s, i⟩ => ⟨none, ws, s, i⟩
  | ⟨some ret, ws, s, i⟩ =>
    if obs_source_get_type ret ≠ ObsSourceType.scene then
      ⟨none, ws ++ [(RequestStatus.InvalidResourceType,
        "The specified source is not a scene.")], s - 1, i⟩
    else if filter = ObsWebSocketSceneFilter.SceneOnly ∧ obs_source_is_group ret = true then
      ⟨none, ws ++ [(RequestStatus.InvalidResourceType,
        "The specified source is not a scene.")], s - 1, i⟩
    else if filter = ObsWebSocketSceneFilter.GroupOnly ∧ obs_source_is_group ret = false then
      ⟨none, ws ++ [(RequestStatus.InvalidResourceType,
        "The specified source is not a group.")], s - 1, i⟩
    else ⟨some ret, ws, s, i⟩

/-- Request::ValidateInput.  A resolved source that is not an input is
released before the failure return. -/
def Request.ValidateInput (r : Request) (w : ObsWorld) (keyName : String) :
    ResResult ObsSource :=
  match r.ValidateSource w keyName with
  | ⟨none, ws, s, i⟩ => ⟨none, ws, s, i⟩
  | ⟨some ret, ws, s, i⟩ =>
    if obs_source_get_type ret ≠ ObsSourceType.input then
      ⟨none, ws ++ [(RequestStatus.InvalidResourceType,
        "The specified source is not an input.")], s - 1, i⟩
    else ⟨some ret, ws, s, i⟩

/-- Request::ValidateSceneItem.  The scene source reference is released
unconditionally right after ValidateScene returns (a no-op on null); the
min-0 bound of the inner ValidateNumber call and its unbounded maximum are
Request.h's defaults, modelled from the spec; the OBSSource RAII wrapper's
own paired addref/release has no net effect and is not tracked.  A found
scene item is returned with one acquired reference. -/
def Request.ValidateSceneItem (r : Request) (w : ObsWorld)
    (sceneKeyName sceneItemIdKeyName : String)
    (filter : ObsWebSocketSceneFilter) : ResResult SceneItem :=
  match r.ValidateScene w sceneKeyName filter with
  | ⟨none, ws, s, i⟩ => ⟨none, ws, s, i⟩
  | ⟨some sceneSource, ws, s, i⟩ =>
    if (r.ValidateNumber sceneItemIdKeyName (some 0) none).1 = false then
      ⟨none, ws ++ (r.ValidateNumber sceneItemIdKeyName (some 0) none).2, s - 1, i⟩
    else
      match obs_scene_find_sceneitem_by_id (obs_scene_from_source sceneSource)
          ((r.RequestData.get sceneItemIdKeyName).toInt64) with
      | none =>
        ⟨none, ws ++ (r.ValidateNumber sceneItemIdKeyName (some 0) none).2
          ++ [(RequestStatus.ResourceNotFound,
            "No scene items were found in scene `"
              ++ (r.RequestData.get sceneKeyName).asString
              ++ "` with the ID `"
              ++ toString ((r.RequestData.get sceneItemIdKeyName).toInt64) ++ "`.")],
          s - 1, i⟩
      | some sceneItem =>
        ⟨some sceneItem, ws ++ (r.ValidateNumber sceneItemIdKeyName (some 0) none).2,
          s - 1, i + 1⟩

/-- Boolean truth from the negation of falsehood. -/
theorem bool_eq_true_of_not_false {b : Bool} (h : ¬ b = false) : b = true := by
  cases b
  · exact absurd rfl h
  · rfl

/-- Boolean falsehood from the negation of truth. -/
theorem bool_eq_false_of_not_true {b : Bool} (h : ¬ b = true) : b = false := by
  cases b
  · rfl
  · exact absurd rfl h

/-- Outcome discipline of the boolean-returning validators: either a clean
success with no slot write, or a failure with exactly one write. -/
def GoodOutcome (p : Bool × List Write) : Prop :=
  p = (true, ([] : List Write)) ∨ (p.1 = false ∧ ∃ wr, p.2 = [wr])

/-- Success extractor for GoodOutcome. -/
theorem GoodOutcome.ok {p : Bool × List Write} (hp : GoodOutcome p) (h : p.1 = true) :
    p = (true, []) := by
  rcases hp with hp | ⟨h1, _⟩
  · exact hp
  · simp [h] at h1

/-- Failure extractor for GoodOutcome. -/
theorem GoodOutcome.fail {p : Bool × List Write} (hp : GoodOutcome p) (h : p.1 = false) :
    ∃ wr, p.2 = [wr] := by
  rcases hp with hp | ⟨_, hw⟩
  · rw [hp] at h; simp at h
  · exact hw

/-- ValidateBasic obeys the outcome discipline. -/
theorem goodOutcome_basic (r : Request) (k : String) : GoodOutcome (r.ValidateBasic k) := by
  unfold GoodOutcome Request.ValidateBasic
  repeat' split
  all_goals simp

/-- ValidateNumber obeys the outcome discipline. -/
theorem goodOutcome_number (r : Request) (k : String) (mn mx : Option ℚ) :
    GoodOutcome (r.ValidateNumber k mn mx) := by
  have hb := goodOutcome_basic r k
  unfold Request.ValidateNumber
  by_cases h : (r.ValidateBasic k).1 = false
  · rw [if_pos h]
    exact Or.inr ⟨rfl, hb.fail h⟩
  · rw [if_neg h, hb.ok (bool_eq_true_of_not_false h)]
    unfold GoodOutcome
    repeat' split
    all_goals simp

/-- ValidateString obeys the outcome discipline. -/
theorem goodOutcome_string (r : Request) (k : String) (allowEmpty : Bool) :
    GoodOutcome (r.ValidateString k allowEmpty) := by
  have hb := goodOutcome_basic r k
  unfold Request.ValidateString
  by_cases h : (r.ValidateBasic k).1 = false
  · rw [if_pos h]
    exact Or.inr ⟨rfl, hb.fail h⟩
  · rw [if_neg h, hb.ok (bool_eq_true_of_not_false h)]
    unfold GoodOutcome
    repeat' split
    all_goals simp

/-- ValidateBoolean obeys the outcome discipline. -/
theorem goodOutcome_boolean (r : Request) (k : String) :
    GoodOutcome (r.ValidateBoolean k) := by
  have hb := goodOutcome_basic r k
  unfold Request.ValidateBoolean
  by_cases h : (r.ValidateBasic k).1 = false
  · rw [if_pos h]
    exact Or.inr ⟨rfl, hb.fail h⟩
  · rw [if_neg h, hb.ok (bool_eq_true_of_not_false h)]
    unfold GoodOutcome
    repeat' split
    all_goals simp

/-- ValidateObject obeys the outcome discipline. -/
theorem goodOutcome_object (r : Request) (k : String) (allowEmpty : Bool) :
    GoodOutcome (r.ValidateObject k allowEmpty) := by
  have hb := goodOutcome_basic r k
  unfold Request.ValidateObject
  by_cases h : (r.ValidateBasic k).1 = false
  · rw [if_pos h]
    exact Or.inr ⟨rfl, hb.fail h⟩
  · rw [if_neg h, hb.ok (bool_eq_true_of_not_false h)]
    unfold GoodOutcome
    repeat' split
    all_goals simp

/-- ValidateArray obeys the outcome discipline. -/
theorem goodOutcome_array (r : Request) (k : String) (allowEmpty : Bool) :
    GoodOutcome (r.ValidateArray k allowEmpty) := by
  have hb := goodOutcome_basic r k
  unfold Request.ValidateArray
  by_cases h : (r.ValidateBasic k).1 = false
  · rw [if_pos h]
    exact Or.inr ⟨rfl, hb.fail h⟩
  · rw [if_neg h, hb.ok (bool_eq_true_of_not_false h)]
    unfold GoodOutcome
    repeat' split
    all_goals simp

/-- Outcome discipline of a resource validator: a non-null handle with no slot
write and the stated reference deltas, or a null handle with at least one
write and the failure deltas. -/
def GoodRes {α : Type} (v : ResResult α) (okSrc okItem : ℤ) : Prop :=
  ((∃ x, v.res = some x) ∧ v.writes = [] ∧ v.srcRefs = okSrc ∧ v.itemRefs = okItem)
  ∨ (v.res = none ∧ v.writes ≠ [] ∧ v.srcRefs = 0 ∧ v.itemRefs = 0)

/-- ValidateSource: one source reference handed to the caller on success, no
net references on failure. -/
theorem goodRes_source (r : Request) (w : ObsWorld) (k : String) :
    GoodRes (r.ValidateSource w k) 1 0 := by
  have hs := goodOutcome_string r k false
  unfold GoodRes Request.ValidateSource
  by_cases h : (r.ValidateString k false).1 = false
  · rw [if_pos h]
    rcases hs.fail h with ⟨wr, hw⟩
    exact Or.inr ⟨rfl, by simp [hw], rfl, rfl⟩
  · rw [if_neg h, hs.ok (bool_eq_true_of_not_false h)]
    cases hm : obs_get_source_by_name w ((r.RequestData.get k).asString) with
    | none => exact Or.inr ⟨rfl, by simp, rfl, rfl⟩
    | some s => exact Or.inl ⟨⟨s, rfl⟩, rfl, rfl, rfl⟩

/-- ValidateScene: one source reference on success, none on failure. -/
theorem goodRes_scene (r : Request) (w : ObsWorld) (k : String)
    (filter : ObsWebSocketSceneFilter) : GoodRes (r.ValidateScene w k filter) 1 0 := by
  have hs := goodRes_source r w k
  unfold GoodRes Request.ValidateScene
  rcases hv : r.ValidateSource w k with ⟨res, ws, s, i⟩
  rw [hv] at hs
  unfold GoodRes at hs
  simp only at hs
  cases res with
  | none =>
    rcases hs with ⟨⟨x, hx⟩, _⟩ | ⟨_, h2, h3, h4⟩
    · exact absurd hx (by simp)
    · exact Or.inr ⟨rfl, h2, h3, h4⟩
  | some ret =>
    rcases hs with ⟨_, h2, h3, h4⟩ | ⟨h1, _⟩
    · subst h2; subst h3; subst h4
      dsimp only
      repeat' split
      all_goals simp
    · exact absurd h1 (by simp)

/-- ValidateInput: one source reference on success, none on failure. -/
theorem goodRes_input (r : Request) (w : ObsWorld) (k : String) :
    GoodRes (r.ValidateInput w k) 1 0 := by
  have hs := goodRes_source r w k
  unfold GoodRes Request.ValidateInput
  rcases hv : r.ValidateSource w k with ⟨res, ws, s, i⟩
  rw [hv] at hs
  unfold GoodRes at hs
  simp only at hs
  cases res with
  | none =>
    rcases hs with ⟨⟨x, hx⟩, _⟩ | ⟨_, h2, h3, h4⟩
    · exact absurd hx (by simp)
    · exact Or.inr ⟨rfl, h2, h3, h4⟩
  | some ret =>
    rcases hs with ⟨_, h2, h3, h4⟩ | ⟨h1, _⟩
    · subst h2; subst h3; subst h4
      dsimp only
      repeat' split
      all_goals simp
    · exact absurd h1 (by simp)

/-- ValidateSceneItem: the scene reference is dropped on every path; one
scene-item reference is handed to the caller on success and none on
failure. -/
theorem goodRes_sceneItem (r : Request) (w : ObsWorld) (sk ik : String)
    (filter : ObsWebSocketSceneFilter) :
    GoodRes (r.ValidateSceneItem w sk ik filter) 0 1 := by
  have hs := goodRes_scene r w sk filter
  have hn := goodOutcome_number r ik (some 0) none
  unfold GoodRes Request.ValidateSceneItem
  rcases hv : r.ValidateScene w sk filter with ⟨res, ws, s, i⟩
  rw [hv] at hs
  unfold GoodRes at hs
  simp only at hs
  cases res with
  | none =>
    rcases hs with ⟨⟨x, hx⟩, _⟩ | ⟨_, h2, h3, h4⟩
    · exact absurd hx (by simp)
    · exact Or.inr ⟨rfl, h2, h3, h4⟩
  | some sceneSource =>
    rcases hs with ⟨_, h2, h3, h4⟩ | ⟨h1, _⟩
    · subst h2; subst h3; subst h4
      dsimp only
      by_cases h : (r.ValidateNumber ik (some 0) none).1 = false
      · rw [if_pos h]
        rcases hn.fail h with ⟨wr, hw⟩
        exact Or.inr ⟨rfl, by simp [hw], by norm_num, rfl⟩
      · rw [if_neg h, hn.ok (bool_eq_true_of_not_false h)]
        cases hm : obs_scene_find_sceneitem_by_id (obs_scene_from_source sceneSource)
            ((r.RequestData.get ik).toInt64) with
        | none => exact Or.inr ⟨rfl, by simp, by norm_num, rfl⟩
        | some it => exact Or.inl ⟨⟨it, rfl⟩, by simp, by norm_num, by norm_num⟩
    · exact absurd h1 (by simp)

/-- The null test characterizes the null document. -/
theorem Json.isNull_eq_true_iff (j : Json) : j.isNull = true ↔ j = Json.null := by
  cases j <;> simp [Json.isNull]

/-- ValidateBasic succeeds exactly on a valid mapping holding the key with a
non-null value. -/
theorem validateBasic_true_iff (r : Request) (k : String) :
    (r.ValidateBasic k).1 = true ↔
      r.HasRequestData = true ∧ r.RequestData.contains k = true
        ∧ (r.RequestData.get k).isNull = false := by
  unfold Request.ValidateBasic
  by_cases h1 : r.HasRequestData = false
  · rw [if_pos h1]; simp [h1]
  · rw [if_neg h1]
    have h1' := bool_eq_true_of_not_false h1
    by_cases h2 : r.RequestData.contains k = false ∨ (r.RequestData.get k).isNull = true
    · rw [if_pos h2]
      rcases h2 with h2 | h2 <;> simp [h1', h2]
    · rw [if_neg h2]
      push_neg at h2
      simp [h1', bool_eq_true_of_not_false h2.1, h2.2]

/-- ValidateBasic on a valid mapping with the key absent or null. -/
theorem validateBasic_missing (r : Request) (k : String) (h : r.HasRequestData = true)
    (h2 : r.RequestData.contains k = false ∨ (r.RequestData.get k).isNull = true) :
    r.ValidateBasic k
      = (false, [(RequestStatus.MissingRequestParameter, missingParamComment k)]) := by
  unfold Request.ValidateBasic
  rw [if_neg (by simp [h]), if_pos h2]

/-- ValidateBasic on a valid mapping with the key present and non-null. -/
theorem validateBasic_present (r : Request) (k : String) (h : r.HasRequestData = true)
    (hc : r.RequestData.contains k = true) (hn : (r.RequestData.get k).isNull = false) :
    r.ValidateBasic k = (true, []) := by
  unfold Request.ValidateBasic
  rw [if_neg (by simp [h]), if_neg (by simp [hc, hn])]

/-- Claim C2: on a request whose data mapping is valid, ValidateBasic fails
with MissingRequestParameter and the comment naming the key exactly when the
key is absent from the mapping or present with an explicit null value, and
returns success on every key present with a non-null value. -/
theorem claim_C2_validateBasic (r : Request) (k : String) (h : r.HasRequestData = true) :
    (r.ValidateBasic k
        = (false, [(RequestStatus.MissingRequestParameter, missingParamComment k)])
      ↔ (r.RequestData.lookup k = none ∨ r.RequestData.lookup k = some Json.null))
    ∧ (∀ v, r.RequestData.lookup k = some v → v.isNull = false →
        r.ValidateBasic k = (true, [])) := by
  constructor
  · constructor
    · intro hf
      cases hl : r.RequestData.lookup k with
      | none => exact Or.inl rfl
      | some v =>
        by_cases hn : v.isNull = true
        · exact Or.inr (by rw [(Json.isNull_eq_true_iff v).mp hn])
        · rw [validateBasic_present r k h (by simp [Json.contains, hl])
            (by simpa [Json.get, hl] using bool_eq_false_of_not_true hn)] at hf
          exact absurd hf (by simp)
    · intro h2
      apply validateBasic_missing r k h
      rcases h2 with h2 | h2
      · exact Or.inl (by simp [Json.contains, h2])
      · exact Or.inr (by simp [Json.get, h2, Json.isNull])
  · intro v hl hn
    exact validateBasic_present r k h (by simp [Json.contains, hl])
      (by simpa [Json.get, hl] using hn)

/-- Witness for claim C2 at a concrete request. -/
theorem claim_C2_witness :
    (Request.construct 1 false "T" (Json.obj [("a", Json.num 1)])).ValidateBasic "b"
      = (false, [(RequestStatus.MissingRequestParameter, missingParamComment "b")]) :=
  (claim_C2_validateBasic (Request.construct 1 false "T" (Json.obj [("a", Json.num 1)]))
    "b" rfl).1.mpr (Or.inl rfl)

/-- Claim C3: for every raw payload the constructed request data is a valid
mapping (kept when it is an object, replaced by the empty mapping otherwise),
so ValidateBasic on a constructed request never writes MissingRequestData;
with the empty document it writes MissingRequestParameter instead. -/
theorem claim_C3_construction (v : ℕ) (fl : Bool) (ty : String) (raw : Json) :
    ((Request.construct v fl ty raw).RequestData.isObject = true)
    ∧ (raw.isObject = true → (Request.construct v fl ty raw).RequestData = raw)
    ∧ (raw.isObject = false → (Request.construct v fl ty raw).RequestData = Json.obj [])
    ∧ (∀ k, RequestStatus.MissingRequestData
        ∉ ((Request.construct v fl ty raw).ValidateBasic k).2.map Prod.fst)
    ∧ (∀ k, (Request.construct v fl ty (Json.obj [])).ValidateBasic k
        = (false, [(RequestStatus.MissingRequestParameter, missingParamComment k)])) := by
  have hobj : (Request.construct v fl ty raw).RequestData.isObject = true := by
    unfold Request.construct GetDefaultJsonObject
    by_cases h : raw.isObject = false
    · rw [if_pos h]; rfl
    · rw [if_neg h]; exact bool_eq_true_of_not_false h
  refine ⟨hobj, ?_, ?_, ?_, ?_⟩
  · intro h
    unfold Request.construct GetDefaultJsonObject
    rw [if_neg (by simp [h])]
  · intro h
    unfold Request.construct GetDefaultJsonObject
    rw [if_pos h]
  · intro k
    have hd : (Request.construct v fl ty raw).HasRequestData = true := hobj
    unfold Request.ValidateBasic
    rw [if_neg (by simp [hd])]
    by_cases h2 : (Request.construct v fl ty raw).RequestData.contains k = false
        ∨ ((Request.construct v fl ty raw).RequestData.get k).isNull = true
    · rw [if_pos h2]; simp
    · rw [if_neg h2]; simp
  · intro k
    exact validateBasic_missing _ k rfl (Or.inl rfl)

/-- Witness for claim C3 at concrete payloads. -/
theorem claim_C3_witness :
    (Request.construct 1 false "T" (Json.num 3)).RequestData = Json.obj []
    ∧ (Request.construct 1 false "T" (Json.obj [])).ValidateBasic "anything"
      = (false, [(RequestStatus.MissingRequestParameter, missingParamComment "anything")]) :=
  ⟨(claim_C3_construction 1 false "T" (Json.num 3)).2.2.1 rfl,
   (claim_C3_construction 1 false "T" (Json.num 3)).2.2.2.2 "anything"⟩

/-- Unfolding of ValidateNumber at two given bounds. -/
theorem validateNumber_def_some_some (r : Request) (k : String) (mn mx : ℚ) :
    r.ValidateNumber k (some mn) (some mx) =
      if (r.ValidateBasic k).1 = false then (false, (r.ValidateBasic k).2)
      else if (r.RequestData.get k).isNumber = false then
        (false, (r.ValidateBasic k).2 ++ [(RequestStatus.InvalidRequestParameterType,
          "The parameter `" ++ k ++ "` must be a number.")])
      else if (r.RequestData.get k).asNumber < mn then
        (false, (r.ValidateBasic k).2
          ++ [(RequestStatus.RequestParameterOutOfRange, belowComment k mn)])
      else if mx < (r.RequestData.get k).asNumber then
        (false, (r.ValidateBasic k).2
          ++ [(RequestStatus.RequestParameterOutOfRange, aboveComment k mx)])
      else (true, []) := rfl

/-- Unfolding of ValidateNumber at a given minimum and the unbounded default
maximum. -/
theorem validateNumber_def_some_none (r : Request) (k : String) (mn : ℚ) :
    r.ValidateNumber k (some mn) none =
      if (r.ValidateBasic k).1 = false then (false, (r.ValidateBasic k).2)
      else if (r.RequestData.get k).isNumber = false then
        (false, (r.ValidateBasic k).2 ++ [(RequestStatus.InvalidRequestParameterType,
          "The parameter `" ++ k ++ "` must be a number.")])
      else if (r.RequestData.get k).asNumber < mn then
        (false, (r.ValidateBasic k).2
          ++ [(RequestStatus.RequestParameterOutOfRange, belowComment k mn)])
      else (true, []) := rfl

/-- ValidateNumber with both bounds succeeds exactly on a numeric value
inside the inclusive range. -/
theorem validateNumber_true_iff (r : Request) (k : String) (mn mx : ℚ) :
    (r.ValidateNumber k (some mn) (some mx)).1 = true ↔
      ((r.ValidateBasic k).1 = true ∧ (r.RequestData.get k).isNumber = true
        ∧ mn ≤ (r.RequestData.get k).asNumber ∧ (r.RequestData.get k).asNumber ≤ mx) := by
  rw [validateNumber_def_some_some]
  by_cases hb : (r.ValidateBasic k).1 = false
  · rw [if_pos hb]; simp [hb]
  · have hb' := bool_eq_true_of_not_false hb
    rw [if_neg hb]
    by_cases ht : (r.RequestData.get k).isNumber = false
    · rw [if_pos ht]; simp [ht]
    · have ht' := bool_eq_true_of_not_false ht
      rw [if_neg ht]
      by_cases h1 : (r.RequestData.get k).asNumber < mn
      · rw [if_pos h1]
        simp [hb', ht', not_le.mpr h1]
      · rw [if_neg h1]
        by_cases h2 : mx < (r.RequestData.get k).asNumber
        · rw [if_pos h2]
          simp [hb', ht', not_le.mpr h2]
        · rw [if_neg h2]
          simp [hb', ht', not_lt.mp h1, not_lt.mp h2]

/-- ValidateNumber writes the below-minimum out-of-range failure. -/
theorem validateNumber_below (r : Request) (k : String) (mn : ℚ) (mx : Option ℚ)
    (hb : (r.ValidateBasic k).1 = true) (ht : (r.RequestData.get k).isNumber = true)
    (h1 : (r.RequestData.get k).asNumber < mn) :
    r.ValidateNumber k (some mn) mx
      = (false, [(RequestStatus.RequestParameterOutOfRange, belowComment k mn)]) := by
  cases mx with
  | none =>
    rw [validateNumber_def_some_none, if_neg (by simp [hb]), if_neg (by simp [ht]),
      (goodOutcome_basic r k).ok hb, if_pos h1]
    simp
  | some mx =>
    rw [validateNumber_def_some_some, if_neg (by simp [hb]), if_neg (by simp [ht]),
      (goodOutcome_basic r k).ok hb, if_pos h1]
    simp

/-- ValidateNumber writes the above-maximum out-of-range failure. -/
theorem validateNumber_above (r : Request) (k : String) (mn mx : ℚ)
    (hb : (r.ValidateBasic k).1 = true) (ht : (r.RequestData.get k).isNumber = true)
    (h1 : ¬ (r.RequestData.get k).asNumber < mn)
    (h2 : mx < (r.RequestData.get k).asNumber) :
    r.ValidateNumber k (some mn) (some mx)
      = (false, [(RequestStatus.RequestParameterOutOfRange, aboveComment k mx)]) := by
  rw [validateNumber_def_some_some, if_neg (by simp [hb]), if_neg (by simp [ht]),
    (goodOutcome_basic r k).ok hb, if_neg h1, if_pos h2]
  simp

/-- The below-minimum and above-maximum comments are distinct strings. -/
theorem belowComment_ne_aboveComment (k : String) (a b : ℚ) :
    belowComment k a ≠ aboveComment k b := by
  unfold belowComment aboveComment
  intro h
  have h2 := congrArg String.data h
  simp only [String.data_append, List.append_assoc] at h2
  have h3 := List.append_cancel_left (List.append_cancel_left h2)
  simp only [List.cons_append, List.cons.injEq] at h3
  exact absurd h3.2.2.2.2.2.1 (by decide)

/-- Claim C1: ValidateNumber with inclusive bounds succeeds exactly when the
key passes ValidateBasic, the value is numeric, and the value lies in the
inclusive range; a value below the minimum fails with
RequestParameterOutOfRange and the below-minimum comment naming the bound,
a value above the maximum fails with RequestParameterOutOfRange and the
distinct above-maximum comment naming the bound. -/
theorem claim_C1_validateNumber (r : Request) (k : String) (mn mx : ℚ) :
    ((r.ValidateNumber k (some mn) (some mx)).1 = true ↔
      ((r.ValidateBasic k).1 = true ∧ (r.RequestData.get k).isNumber = true
        ∧ mn ≤ (r.RequestData.get k).asNumber ∧ (r.RequestData.get k).asNumber ≤ mx))
    ∧ ((r.ValidateBasic k).1 = true → (r.RequestData.get k).isNumber = true →
        (((r.RequestData.get k).asNumber < mn →
          r.ValidateNumber k (some mn) (some mx)
            = (false, [(RequestStatus.RequestParameterOutOfRange, belowComment k mn)]))
        ∧ (mn ≤ mx → mx < (r.RequestData.get k).asNumber →
          r.ValidateNumber k (some mn) (some mx)
            = (false, [(RequestStatus.RequestParameterOutOfRange, aboveComment k mx)]))))
    ∧ belowComment k mn ≠ aboveComment k mx := by
  refine ⟨validateNumber_true_iff r k mn mx, ?_, belowComment_ne_aboveComment k mn mx⟩
  intro hb ht
  refine ⟨fun h1 => validateNumber_below r k mn (some mx) hb ht h1, fun hle h2 => ?_⟩
  exact validateNumber_above r k mn mx hb ht (not_lt.mpr (le_trans hle (le_of_lt h2))) h2

/-- Witness for claim C1: an in-range value succeeds, a boundary value
succeeds, and a below-minimum value fails with the below comment. -/
theorem claim_C1_witness :
    ((Request.construct 1 false "T" (Json.obj [("x", Json.num 5)])).ValidateNumber "x"
        (some 0) (some 10)).1 = true
    ∧ ((Request.construct 1 false "T" (Json.obj [("x", Json.num 0)])).ValidateNumber "x"
        (some 0) (some 10)).1 = true
    ∧ (Request.construct 1 false "T" (Json.obj [("x", Json.num (-1))])).ValidateNumber "x"
        (some 0) (some 10)
      = (false, [(RequestStatus.RequestParameterOutOfRange, belowComment "x" 0)]) :=
  ⟨(claim_C1_validateNumber (Request.construct 1 false "T" (Json.obj [("x", Json.num 5)]))
      "x" 0 10).1.mpr ⟨rfl, rfl, by decide, by decide⟩,
   (claim_C1_validateNumber (Request.construct 1 false "T" (Json.obj [("x", Json.num 0)]))
      "x" 0 10).1.mpr ⟨rfl, rfl, by decide, by decide⟩,
   ((claim_C1_validateNumber (Request.construct 1 false "T" (Json.obj [("x", Json.num (-1))]))
      "x" 0 10).2.1 rfl rfl).1 (by decide)⟩

/-- Success extractor for GoodRes. -/
theorem GoodRes.writes_of_some {α : Type} {v : ResResult α} {a b : ℤ}
    (hv : GoodRes v a b) {x : α} (h : v.res = some x) :
    v.writes = [] ∧ v.srcRefs = a ∧ v.itemRefs = b := by
  rcases hv with ⟨_, h2, h3, h4⟩ | ⟨h1, _⟩
  · exact ⟨h2, h3, h4⟩
  · rw [h1] at h; exact absurd h (by simp)

/-- Failure extractor for GoodRes. -/
theorem GoodRes.of_none {α : Type} {v : ResResult α} {a b : ℤ}
    (hv : GoodRes v a b) (h : v.res = none) :
    v.writes ≠ [] ∧ v.srcRefs = 0 ∧ v.itemRefs = 0 := by
  rcases hv with ⟨⟨x, hx⟩, _⟩ | ⟨_, h2, h3, h4⟩
  · rw [h] at hx; exact absurd hx (by simp)
  · exact ⟨h2, h3, h4⟩

/-- Nullity extractor for GoodRes: a handle is returned exactly when no slot
write happened. -/
theorem GoodRes.some_iff_no_write {α : Type} {v : ResResult α} {a b : ℤ}
    (hv : GoodRes v a b) : (∃ x, v.res = some x) ↔ v.writes = [] := by
  rcases hv with ⟨h1, h2, _⟩ | ⟨h1, h2, _⟩
  · exact ⟨fun _ => h2, fun _ => h1⟩
  · constructor
    · rintro ⟨x, hx⟩
      rw [h1] at hx
      exact absurd hx (by simp)
    · intro hw
      exact absurd hw h2

/-- Claim C9: on every success path of every validator the caller-supplied
statusCode and comment slots receive no write. -/
theorem claim_C9_frame (r : Request) (w : ObsWorld) (k sk ik : String)
    (mn mx : Option ℚ) (allowEmpty : Bool) (filter : ObsWebSocketSceneFilter) :
    ((r.ValidateBasic k).1 = true → (r.ValidateBasic k).2 = [])
    ∧ ((r.ValidateNumber k mn mx).1 = true → (r.ValidateNumber k mn mx).2 = [])
    ∧ ((r.ValidateString k allowEmpty).1 = true → (r.ValidateString k allowEmpty).2 = [])
    ∧ ((r.ValidateBoolean k).1 = true → (r.ValidateBoolean k).2 = [])
    ∧ ((r.ValidateObject k allowEmpty).1 = true → (r.ValidateObject k allowEmpty).2 = [])
    ∧ ((r.ValidateArray k allowEmpty).1 = true → (r.ValidateArray k allowEmpty).2 = [])
    ∧ (∀ x, (r.ValidateSource w k).res = some x → (r.ValidateSource w k).writes = [])
    ∧ (∀ x, (r.ValidateScene w k filter).res = some x →
        (r.ValidateScene w k filter).writes = [])
    ∧ (∀ x, (r.ValidateInput w k).res = some x → (r.ValidateInput w k).writes = [])
    ∧ (∀ x, (r.ValidateSceneItem w sk ik filter).res = some x →
        (r.ValidateSceneItem w sk ik filter).writes = []) :=
  ⟨fun h => by rw [(goodOutcome_basic r k).ok h],
   fun h => by rw [(goodOutcome_number r k mn mx).ok h],
   fun h => by rw [(goodOutcome_string r k allowEmpty).ok h],
   fun h => by rw [(goodOutcome_boolean r k).ok h],
   fun h => by rw [(goodOutcome_object r k allowEmpty).ok h],
   fun h => by rw [(goodOutcome_array r k allowEmpty).ok h],
   fun _ h => ((goodRes_source r w k).writes_of_some h).1,
   fun _ h => ((goodRes_scene r w k filter).writes_of_some h).1,
   fun _ h => ((goodRes_input r w k).writes_of_some h).1,
   fun _ h => ((goodRes_sceneItem r w sk ik filter).writes_of_some h).1⟩

/-- Witness for claim C9 at a concrete succeeding request. -/
theorem claim_C9_witness :
    ((Request.construct 1 false "T" (Json.obj [("x", Json.num 5)])).ValidateNumber "x"
      (some 0) (some 10)).2 = [] :=
  (claim_C9_frame (Request.construct 1 false "T" (Json.obj [("x", Json.num 5)]))
    ⟨[]⟩ "x" "x" "x" (some 0) (some 10) false ObsWebSocketSceneFilter.SceneOnly).2.1
    (by decide)

/-- Claim C10: for the four resource validators, nullity of the returned
handle is the failure signal: the handle is non-null exactly when no status
or comment write happened, and a null return always comes with at least one
write. -/
theorem claim_C10_nullity (r : Request) (w : ObsWorld) (k sk ik : String)
    (filter : ObsWebSocketSceneFilter) :
    (((∃ x, (r.ValidateSource w k).res = some x) ↔ (r.ValidateSource w k).writes = [])
      ∧ ((r.ValidateSource w k).res = none → (r.ValidateSource w k).writes ≠ []))
    ∧ (((∃ x, (r.ValidateScene w k filter).res = some x)
          ↔ (r.ValidateScene w k filter).writes = [])
      ∧ ((r.ValidateScene w k filter).res = none →
          (r.ValidateScene w k filter).writes ≠ []))
    ∧ (((∃ x, (r.ValidateInput w k).res = some x) ↔ (r.ValidateInput w k).writes = [])
      ∧ ((r.ValidateInput w k).res = none → (r.ValidateInput w k).writes ≠ []))
    ∧ (((∃ x, (r.ValidateSceneItem w sk ik filter).res = some x)
          ↔ (r.ValidateSceneItem w sk ik filter).writes = [])
      ∧ ((r.ValidateSceneItem w sk ik filter).res = none →
          (r.ValidateSceneItem w sk ik filter).writes ≠ [])) :=
  ⟨⟨(goodRes_source r w k).some_iff_no_write,
    fun h => ((goodRes_source r w k).of_none h).1⟩,
   ⟨(goodRes_scene r w k filter).some_iff_no_write,
    fun h => ((goodRes_scene r w k filter).of_none h).1⟩,
   ⟨(goodRes_input r w k).some_iff_no_write,
    fun h => ((goodRes_input r w k).of_none h).1⟩,
   ⟨(goodRes_sceneItem r w sk ik filter).some_iff_no_write,
    fun h => ((goodRes_sceneItem r w sk ik filter).of_none h).1⟩⟩

/-- Witness for claim C10 at a concrete failing request. -/
theorem claim_C10_witness :
    ((Request.construct 1 false "T" (Json.obj [])).ValidateSource ⟨[]⟩ "k").writes ≠ [] :=
  (claim_C10_nullity (Request.construct 1 false "T" (Json.obj [])) ⟨[]⟩ "k" "k" "k"
    ObsWebSocketSceneFilter.SceneOnly).1.2 (by decide)

/-- Claim C6: net reference accounting — every failing path of the resource
validators releases everything it acquired, ValidateSceneItem drops the scene
reference on all paths including success, and a successful ValidateSceneItem
holds exactly the one scene-item reference handed to the caller. -/
theorem claim_C6_refcounts (r : Request) (w : ObsWorld) (k sk ik : String)
    (filter : ObsWebSocketSceneFilter) :
    ((r.ValidateSource w k).res = none →
      (r.ValidateSource w k).srcRefs = 0 ∧ (r.ValidateSource w k).itemRefs = 0)
    ∧ ((r.ValidateScene w k filter).res = none →
      (r.ValidateScene w k filter).srcRefs = 0
        ∧ (r.ValidateScene w k filter).itemRefs = 0)
    ∧ ((r.ValidateInput w k).res = none →
      (r.ValidateInput w k).srcRefs = 0 ∧ (r.ValidateInput w k).itemRefs = 0)
    ∧ ((r.ValidateSceneItem w sk ik filter).res = none →
      (r.ValidateSceneItem w sk ik filter).srcRefs = 0
        ∧ (r.ValidateSceneItem w sk ik filter).itemRefs = 0)
    ∧ ((r.ValidateSceneItem w sk ik filter).srcRefs = 0)
    ∧ (∀ x, (r.ValidateSceneItem w sk ik filter).res = some x →
        (r.ValidateSceneItem w sk ik filter).itemRefs = 1) := by
  refine ⟨fun h => ((goodRes_source r w k).of_none h).2,
    fun h => ((goodRes_scene r w k filter).of_none h).2,
    fun h => ((goodRes_input r w k).of_none h).2,
    fun h => ((goodRes_sceneItem r w sk ik filter).of_none h).2, ?_,
    fun _ h => ((goodRes_sceneItem r w sk ik filter).writes_of_some h).2.2⟩
  rcases goodRes_sceneItem r w sk ik filter with ⟨_, _, h3, _⟩ | ⟨_, _, h3, _⟩
  · exact h3
  · exact h3

/-- Witness for claim C6 at a concrete failing request. -/
theorem claim_C6_witness :
    ((Request.construct 1 false "T" (Json.obj [])).ValidateSceneItem ⟨[]⟩ "s" "i"
        ObsWebSocketSceneFilter.SceneOnly).srcRefs = 0
    ∧ ((Request.construct 1 false "T" (Json.obj [])).ValidateSceneItem ⟨[]⟩ "s" "i"
        ObsWebSocketSceneFilter.SceneOnly).itemRefs = 0 :=
  (claim_C6_refcounts (Request.construct 1 false "T" (Json.obj [])) ⟨[]⟩ "k" "s" "i"
    ObsWebSocketSceneFilter.SceneOnly).2.2.2.1 (by decide)

/-- A failing ValidateBasic short-circuits ValidateNumber unchanged. -/
theorem validateNumber_propagates (r : Request) (k : String) (mn mx : Option ℚ)
    (h : (r.ValidateBasic k).1 = false) :
    r.ValidateNumber k mn mx = (false, (r.ValidateBasic k).2) := by
  unfold Request.ValidateNumber
  rw [if_pos h]

/-- A failing ValidateBasic short-circuits ValidateString unchanged. -/
theorem validateString_propagates (r : Request) (k : String) (allowEmpty : Bool)
    (h : (r.ValidateBasic k).1 = false) :
    r.ValidateString k allowEmpty = (false, (r.ValidateBasic k).2) := by
  unfold Request.ValidateString
  rw [if_pos h]

/-- A failing ValidateBasic short-circuits ValidateBoolean unchanged. -/
theorem validateBoolean_propagates (r : Request) (k : String)
    (h : (r.ValidateBasic k).1 = false) :
    r.ValidateBoolean k = (false, (r.ValidateBasic k).2) := by
  unfold Request.ValidateBoolean
  rw [if_pos h]

/-- A failing ValidateBasic short-circuits ValidateObject unchanged. -/
theorem validateObject_propagates (r : Request) (k : String) (allowEmpty : Bool)
    (h : (r.ValidateBasic k).1 = false) :
    r.ValidateObject k allowEmpty = (false, (r.ValidateBasic k).2) := by
  unfold Request.ValidateObject
  rw [if_pos h]

/-- A failing ValidateBasic short-circuits ValidateArray unchanged. -/
theorem validateArray_propagates (r : Request) (k : String) (allowEmpty : Bool)
    (h : (r.ValidateBasic k).1 = false) :
    r.ValidateArray k allowEmpty = (false, (r.ValidateBasic k).2) := by
  unfold Request.ValidateArray
  rw [if_pos h]

/-- A failing ValidateString short-circuits ValidateSource unchanged. -/
theorem validateSource_propagates (r : Request) (w : ObsWorld) (k : String)
    (h : (r.ValidateString k false).1 = false) :
    r.ValidateSource w k = ⟨none, (r.ValidateString k false).2, 0, 0⟩ := by
  unfold Request.ValidateSource
  rw [if_pos h]

/-- A failing ValidateSource short-circuits ValidateScene unchanged. -/
theorem validateScene_propagates (r : Request) (w : ObsWorld) (k : String)
    (filter : ObsWebSocketSceneFilter) (h : (r.ValidateSource w k).res = none) :
    r.ValidateScene w k filter
      = ⟨none, (r.ValidateSource w k).writes, (r.ValidateSource w k).srcRefs,
          (r.ValidateSource w k).itemRefs⟩ := by
  unfold Request.ValidateScene
  rcases hv : r.ValidateSource w k with ⟨res, ws, s, i⟩
  rw [hv] at h
  simp only at h
  subst h
  rfl

/-- A failing ValidateSource short-circuits ValidateInput unchanged. -/
theorem validateInput_propagates (r : Request) (w : ObsWorld) (k : String)
    (h : (r.ValidateSource w k).res = none) :
    r.ValidateInput w k
      = ⟨none, (r.ValidateSource w k).writes, (r.ValidateSource w k).srcRefs,
          (r.ValidateSource w k).itemRefs⟩ := by
  unfold Request.ValidateInput
  rcases hv : r.ValidateSource w k with ⟨res, ws, s, i⟩
  rw [hv] at h
  simp only at h
  subst h
  rfl

/-- A failing ValidateScene short-circuits ValidateSceneItem unchanged. -/
theorem validateSceneItem_propagates_scene (r : Request) (w : ObsWorld) (sk ik : String)
    (filter : ObsWebSocketSceneFilter) (h : (r.ValidateScene w sk filter).res = none) :
    r.ValidateSceneItem w sk ik filter
      = ⟨none, (r.ValidateScene w sk filter).writes, (r.ValidateScene w sk filter).srcRefs,
          (r.ValidateScene w sk filter).itemRefs⟩ := by
  unfold Request.ValidateSceneItem
  rcases hv : r.ValidateScene w sk filter with ⟨res, ws, s, i⟩
  rw [hv] at h
  simp only at h
  subst h
  rfl

/-- After a successful scene resolution, a failing ValidateNumber
short-circuits ValidateSceneItem with exactly the number check's write. -/
theorem validateSceneItem_propagates_number (r : Request) (w : ObsWorld) (sk ik : String)
    (filter : ObsWebSocketSceneFilter) (x : ObsSource)
    (hx : (r.ValidateScene w sk filter).res = some x)
    (hn : (r.ValidateNumber ik (some 0) none).1 = false) :
    (r.ValidateSceneItem w sk ik filter).res = none
    ∧ (r.ValidateSceneItem w sk ik filter).writes
        = (r.ValidateNumber ik (some 0) none).2 := by
  have hw := ((goodRes_scene r w sk filter).writes_of_some hx).1
  unfold Request.ValidateSceneItem
  rcases hv : r.ValidateScene w sk filter with ⟨res, ws, s, i⟩
  rw [hv] at hx hw
  simp only at hx hw
  subst hx
  subst hw
  dsimp only
  rw [if_pos hn]
  exact ⟨rfl, by simp⟩

/-- Claim C8: every delegating validator propagates a failing delegate's
status code and comment unchanged: the typed checks propagate ValidateBasic,
ValidateSource propagates ValidateString, ValidateScene propagates
ValidateSource, and ValidateSceneItem propagates ValidateScene and
ValidateNumber. -/
theorem claim_C8_propagation (r : Request) (w : ObsWorld) (k sk ik : String)
    (mn mx : Option ℚ) (allowEmpty : Bool) (filter : ObsWebSocketSceneFilter) :
    ((r.ValidateBasic k).1 = false →
      (r.ValidateNumber k mn mx = (false, (r.ValidateBasic k).2)
      ∧ r.ValidateString k allowEmpty = (false, (r.ValidateBasic k).2)
      ∧ r.ValidateBoolean k = (false, (r.ValidateBasic k).2)
      ∧ r.ValidateObject k allowEmpty = (false, (r.ValidateBasic k).2)
      ∧ r.ValidateArray k allowEmpty = (false, (r.ValidateBasic k).2)))
    ∧ ((r.ValidateString k false).1 = false →
      r.ValidateSource w k = ⟨none, (r.ValidateString k false).2, 0, 0⟩)
    ∧ ((r.ValidateSource w k).res = none →
      (r.ValidateScene w k filter).res = none
      ∧ (r.ValidateScene w k filter).writes = (r.ValidateSource w k).writes)
    ∧ ((r.ValidateScene w sk filter).res = none →
      (r.ValidateSceneItem w sk ik filter).res = none
      ∧ (r.ValidateSceneItem w sk ik filter).writes
          = (r.ValidateScene w sk filter).writes)
    ∧ (∀ x, (r.ValidateScene w sk filter).res = some x →
      (r.ValidateNumber ik (some 0) none).1 = false →
      (r.ValidateSceneItem w sk ik filter).res = none
      ∧ (r.ValidateSceneItem w sk ik filter).writes
          = (r.ValidateNumber ik (some 0) none).2) :=
  ⟨fun h => ⟨validateNumber_propagates r k mn mx h,
    validateString_propagates r k allowEmpty h, validateBoolean_propagates r k h,
    validateObject_propagates r k allowEmpty h, validateArray_propagates r k allowEmpty h⟩,
   fun h => validateSource_propagates r w k h,
   fun h => by rw [validateScene_propagates r w k filter h]; exact ⟨rfl, rfl⟩,
   fun h => by rw [validateSceneItem_propagates_scene r w sk ik filter h]; exact ⟨rfl, rfl⟩,
   fun x hx hn => validateSceneItem_propagates_number r w sk ik filter x hx hn⟩

/-- Witness for claim C8 at a concrete request with a missing key. -/
theorem claim_C8_witness :
    (Request.construct 1 false "T" (Json.obj [])).ValidateNumber "x" (some 0) (some 9)
      = (false, ((Request.construct 1 false "T" (Json.obj [])).ValidateBasic "x").2) :=
  ((claim_C8_propagation (Request.construct 1 false "T" (Json.obj [])) ⟨[]⟩ "x" "s" "i"
    (some 0) (some 9) false ObsWebSocketSceneFilter.SceneOnly).1 (by decide)).1

/-- A resource result is determined by its four projections. -/
theorem ResResult.eq_of_some {α : Type} {v : ResResult α} {x : α} {a b : ℤ}
    (h : v.res = some x) (hw : v.writes = []) (hs : v.srcRefs = a)
    (hi : v.itemRefs = b) : v = ⟨some x, [], a, b⟩ := by
  rcases v with ⟨res, ws, s, i⟩
  simp only at h hw hs hi
  subst h; subst hw; subst hs; subst hi; rfl

/-- ValidateSource resolves a found source with one acquired reference. -/
theorem validateSource_found (r : Request) (w : ObsWorld) (k : String) (src : ObsSource)
    (hstr : (r.ValidateString k false).1 = true)
    (hm : obs_get_source_by_name w ((r.RequestData.get k).asString) = some src) :
    r.ValidateSource w k = ⟨some src, [], 1, 0⟩ := by
  unfold Request.ValidateSource
  rw [if_neg (by simp [hstr]), (goodOutcome_string r k false).ok hstr, hm]

/-- ValidateSource fails with ResourceNotFound naming the searched name. -/
theorem validateSource_notFound (r : Request) (w : ObsWorld) (k : String)
    (hstr : (r.ValidateString k false).1 = true)
    (hm : obs_get_source_by_name w ((r.RequestData.get k).asString) = none) :
    r.ValidateSource w k = ⟨none, [(RequestStatus.ResourceNotFound,
      "No source was found by the name of `" ++ (r.RequestData.get k).asString ++ "`.")],
      0, 0⟩ := by
  unfold Request.ValidateSource
  rw [if_neg (by simp [hstr]), (goodOutcome_string r k false).ok hstr, hm]
  rfl

/-- ValidateScene succeeds on a resolved scene source passing the filter. -/
theorem validateScene_ok (r : Request) (w : ObsWorld) (k : String) (src : ObsSource)
    (filter : ObsWebSocketSceneFilter)
    (hsrc : r.ValidateSource w k = ⟨some src, [], 1, 0⟩)
    (htype : src.type = ObsSourceType.scene)
    (hf : ¬(filter = ObsWebSocketSceneFilter.SceneOnly ∧ src.isGroup = true))
    (hg : ¬(filter = ObsWebSocketSceneFilter.GroupOnly ∧ src.isGroup = false)) :
    r.ValidateScene w k filter = ⟨some src, [], 1, 0⟩ := by
  unfold Request.ValidateScene
  rw [hsrc]
  dsimp only
  rw [if_neg (by simp [obs_source_get_type, htype]),
    if_neg (by simpa [obs_source_is_group] using hf),
    if_neg (by simpa [obs_source_is_group] using hg)]

/-- ValidateScene rejects a resolved source that is not a scene. -/
theorem validateScene_failType (r : Request) (w : ObsWorld) (k : String) (src : ObsSource)
    (filter : ObsWebSocketSceneFilter)
    (hsrc : r.ValidateSource w k = ⟨some src, [], 1, 0⟩)
    (htype : src.type ≠ ObsSourceType.scene) :
    r.ValidateScene w k filter = ⟨none, [(RequestStatus.InvalidResourceType,
      "The specified source is not a scene.")], 0, 0⟩ := by
  unfold Request.ValidateScene
  rw [hsrc]
  dsimp only
  rw [if_pos (by simpa [obs_source_get_type] using htype)]
  simp

/-- ValidateScene with the scene-only filter rejects a resolved group. -/
theorem validateScene_failSceneOnly (r : Request) (w : ObsWorld) (k : String)
    (src : ObsSource) (hsrc : r.ValidateSource w k = ⟨some src, [], 1, 0⟩)
    (htype : src.type = ObsSourceType.scene) (hgrp : src.isGroup = true) :
    r.ValidateScene w k ObsWebSocketSceneFilter.SceneOnly
      = ⟨none, [(RequestStatus.InvalidResourceType,
          "The specified source is not a scene.")], 0, 0⟩ := by
  unfold Request.ValidateScene
  rw [hsrc]
  dsimp only
  rw [if_neg (by simp [obs_source_get_type, htype]),
    if_pos (by simp [obs_source_is_group, hgrp])]
  simp

/-- ValidateScene with the group-only filter rejects a resolved non-group. -/
theorem validateScene_failGroupOnly (r : Request) (w : ObsWorld) (k : String)
    (src : ObsSource) (hsrc : r.ValidateSource w k = ⟨some src, [], 1, 0⟩)
    (htype : src.type = ObsSourceType.scene) (hgrp : src.isGroup = false) :
    r.ValidateScene w k ObsWebSocketSceneFilter.GroupOnly
      = ⟨none, [(RequestStatus.InvalidResourceType,
          "The specified source is not a group.")], 0, 0⟩ := by
  unfold Request.ValidateScene
  rw [hsrc]
  dsimp only
  rw [if_neg (by simp [obs_source_get_type, htype]),
    if_neg (by simp [obs_source_is_group, hgrp]),
    if_pos (by simp [obs_source_is_group, hgrp])]
  simp

/-- Claim C7: filter semantics of ValidateScene on a resolved source — a
scene-typed group fails the scene-only filter, a scene-typed non-group fails
the group-only filter, the no-filter mode accepts both, and a non-scene
source fails with InvalidResourceType under every filter. -/
theorem claim_C7_sceneFilter (r : Request) (w : ObsWorld) (k : String) (src : ObsSource)
    (hres : (r.ValidateSource w k).res = some src) :
    (src.type = ObsSourceType.scene →
      ((src.isGroup = true →
        r.ValidateScene w k ObsWebSocketSceneFilter.SceneOnly
          = ⟨none, [(RequestStatus.InvalidResourceType,
              "The specified source is not a scene.")], 0, 0⟩)
      ∧ (src.isGroup = false →
        r.ValidateScene w k ObsWebSocketSceneFilter.GroupOnly
          = ⟨none, [(RequestStatus.InvalidResourceType,
              "The specified source is not a group.")], 0, 0⟩)
      ∧ (src.isGroup = false →
        (r.ValidateScene w k ObsWebSocketSceneFilter.SceneOnly).res = some src)
      ∧ (src.isGroup = true →
        (r.ValidateScene w k ObsWebSocketSceneFilter.GroupOnly).res = some src)
      ∧ (r.ValidateScene w k ObsWebSocketSceneFilter.SceneOrGroup).res = some src))
    ∧ (src.type ≠ ObsSourceType.scene → ∀ filter,
      r.ValidateScene w k filter = ⟨none, [(RequestStatus.InvalidResourceType,
        "The specified source is not a scene.")], 0, 0⟩) := by
  have hw := (goodRes_source r w k).writes_of_some hres
  have hsrc : r.ValidateSource w k = ⟨some src, [], 1, 0⟩ :=
    ResResult.eq_of_some hres hw.1 hw.2.1 hw.2.2
  constructor
  · intro htype
    refine ⟨fun hgrp => validateScene_failSceneOnly r w k src hsrc htype hgrp,
      fun hgrp => validateScene_failGroupOnly r w k src hsrc htype hgrp,
      fun hgrp => ?_, fun hgrp => ?_, ?_⟩
    · rw [validateScene_ok r w k src ObsWebSocketSceneFilter.SceneOnly hsrc htype
        (by simp [hgrp]) (by simp)]
    · rw [validateScene_ok r w k src ObsWebSocketSceneFilter.GroupOnly hsrc htype
        (by simp) (by simp [hgrp])]
    · rw [validateScene_ok r w k src ObsWebSocketSceneFilter.SceneOrGroup hsrc htype
        (by simp) (by simp)]
  · intro htype filter
    exact validateScene_failType r w k src filter hsrc htype

/-- Witness for claim C7: a concrete group scene is rejected by the
scene-only filter. -/
theorem claim_C7_witness :
    (Request.construct 1 false "T" (Json.obj [("s", Json.str "G")])).ValidateScene
        ⟨[⟨"G", ObsSourceType.scene, true, []⟩]⟩ "s" ObsWebSocketSceneFilter.SceneOnly
      = ⟨none, [(RequestStatus.InvalidResourceType,
          "The specified source is not a scene.")], 0, 0⟩ :=
  ((claim_C7_sceneFilter (Request.construct 1 false "T" (Json.obj [("s", Json.str "G")]))
    ⟨[⟨"G", ObsSourceType.scene, true, []⟩]⟩ "s" ⟨"G", ObsSourceType.scene, true, []⟩
    (by decide)).1 rfl).1 rfl

/-- ValidateSceneItem success: resolved scene, valid id, item found. -/
theorem validateSceneItem_found (r : Request) (w : ObsWorld) (sk ik : String)
    (filter : ObsWebSocketSceneFilter) (src : ObsSource) (item : SceneItem)
    (hscene : r.ValidateScene w sk filter = ⟨some src, [], 1, 0⟩)
    (hn : (r.ValidateNumber ik (some 0) none).1 = true)
    (hitem : obs_scene_find_sceneitem_by_id (obs_scene_from_source src)
      ((r.RequestData.get ik).toInt64) = some item) :
    r.ValidateSceneItem w sk ik filter = ⟨some item, [], 0, 1⟩ := by
  unfold Request.ValidateSceneItem
  rw [hscene]
  dsimp only
  rw [if_neg (by simp [hn]), (goodOutcome_number r ik (some 0) none).ok hn, hitem]
  simp

/-- Concrete request of the claim C4 scenario. -/
def reqScene5 : Request := Request.construct 1 false "GetSceneItem"
  (Json.obj [("sceneName", Json.str "Scene 1"), ("sceneItemId", Json.num 5)])

/-- Claim C4 variant of the request with sceneItemId = -1. -/
def reqSceneNeg1 : Request := Request.construct 1 false "GetSceneItem"
  (Json.obj [("sceneName", Json.str "Scene 1"), ("sceneItemId", Json.num (-1))])

/-- Claim C4: end-to-end scenarios for request data sceneName = "Scene 1" and
sceneItemId = 5 — if the scene exists (as a non-group scene, with a filter not
demanding a group) and holds item 5, ValidateSceneItem returns that item's
handle; if no source of that name exists it fails with ResourceNotFound and a
comment naming "Scene 1"; with sceneItemId = -1 it fails below the minimum 0
with RequestParameterOutOfRange; and when the scene is missing the scene
failure wins even with the invalid id, showing the check order scene
resolution, then id check, then item lookup. -/
theorem claim_C4_endToEnd (w : ObsWorld) (src : ObsSource) (item : SceneItem)
    (filter : ObsWebSocketSceneFilter) :
    (obs_get_source_by_name w "Scene 1" = some src → src.type = ObsSourceType.scene →
      src.isGroup = false → filter ≠ ObsWebSocketSceneFilter.GroupOnly →
      obs_scene_find_sceneitem_by_id src.items 5 = some item →
      (reqScene5.ValidateSceneItem w "sceneName" "sceneItemId" filter).res = some item)
    ∧ (obs_get_source_by_name w "Scene 1" = none →
      reqScene5.ValidateSceneItem w "sceneName" "sceneItemId" filter
        = ⟨none, [(RequestStatus.ResourceNotFound,
            "No source was found by the name of `Scene 1`.")], 0, 0⟩)
    ∧ (obs_get_source_by_name w "Scene 1" = some src → src.type = ObsSourceType.scene →
      src.isGroup = false → filter ≠ ObsWebSocketSceneFilter.GroupOnly →
      reqSceneNeg1.ValidateSceneItem w "sceneName" "sceneItemId" filter
        = ⟨none, [(RequestStatus.RequestParameterOutOfRange,
            belowComment "sceneItemId" 0)], 0, 0⟩)
    ∧ (obs_get_source_by_name w "Scene 1" = none →
      reqSceneNeg1.ValidateSceneItem w "sceneName" "sceneItemId" filter
        = ⟨none, [(RequestStatus.ResourceNotFound,
            "No source was found by the name of `Scene 1`.")], 0, 0⟩) := by
  refine ⟨?_, ?_, ?_, ?_⟩
  · intro hm htype hgrp hfil hitem
    have hsrc := validateSource_found reqScene5 w "sceneName" src (by decide) hm
    have hscene := validateScene_ok reqScene5 w "sceneName" src filter hsrc htype
      (by simp [hgrp]) (by intro hcon; exact hfil hcon.1)
    rw [validateSceneItem_found reqScene5 w "sceneName" "sceneItemId" filter src item
      hscene (by decide) hitem]
  · intro hm
    have hsrc := validateSource_notFound reqScene5 w "sceneName" (by decide) hm
    unfold Request.ValidateSceneItem Request.ValidateScene
    rw [hsrc]
    rfl
  · intro hm htype hgrp hfil
    have hsrc := validateSource_found reqSceneNeg1 w "sceneName" src (by decide) hm
    have hscene := validateScene_ok reqSceneNeg1 w "sceneName" src filter hsrc htype
      (by simp [hgrp]) (by intro hcon; exact hfil hcon.1)
    unfold Request.ValidateSceneItem
    rw [hscene]
    dsimp only
    rw [if_pos (by decide)]
    decide
  · intro hm
    have hsrc := validateSource_notFound reqSceneNeg1 w "sceneName" (by decide) hm
    unfold Request.ValidateSceneItem Request.ValidateScene
    rw [hsrc]
    rfl

/-- Witness for claim C4 at a concrete world containing Scene 1 with item 5. -/
theorem claim_C4_witness :
    (reqScene5.ValidateSceneItem ⟨[⟨"Scene 1", ObsSourceType.scene, false, [⟨5⟩]⟩]⟩
      "sceneName" "sceneItemId" ObsWebSocketSceneFilter.SceneOnly).res = some ⟨5⟩ :=
  (claim_C4_endToEnd ⟨[⟨"Scene 1", ObsSourceType.scene, false, [⟨5⟩]⟩]⟩
    ⟨"Scene 1", ObsSourceType.scene, false, [⟨5⟩]⟩ ⟨5⟩
    ObsWebSocketSceneFilter.SceneOnly).1 (by decide) rfl rfl (by decide) (by decide)

/-- Claim C5 request with a fractional sceneItemId of one half. -/
def reqHalf : Request := Request.construct 1 false "GetSceneItem"
  (Json.obj [("sceneName", Json.str "S"), ("sceneItemId", Json.num (mkRat 1 2))])

/-- Claim C5 world: scene "S" contains exactly one item, of id 0. -/
def worldHalf : ObsWorld := ⟨[⟨"S", ObsSourceType.scene, false, [⟨0⟩]⟩]⟩

/-- Counterexample to claim C5 as stated: with sceneItemId = 0.5 the number
check at minimum 0 validates the value one half, yet the scene-item lookup is
made with the truncated integer id 0, which is not equal to the validated
parameter value — the lookup even succeeds on the item of id 0. -/
theorem claim_C5_counterexample :
    ((reqHalf.ValidateNumber "sceneItemId" (some 0) none).1 = true)
    ∧ (reqHalf.RequestData.get "sceneItemId").asNumber = mkRat 1 2
    ∧ (reqHalf.RequestData.get "sceneItemId").toInt64 = 0
    ∧ ((0 : ℚ) ≠ mkRat 1 2)
    ∧ (reqHalf.ValidateSceneItem worldHalf "sceneName" "sceneItemId"
        ObsWebSocketSceneFilter.SceneOnly).res = some ⟨0⟩ := by decide

/-- Claim C5 (amended): ValidateSceneItem checks the item id with
ValidateNumber at minimum 0 and unbounded maximum — negative values are
rejected below the minimum, every non-negative numeric value passes, and the
id used for the scene-item lookup is the validated value truncated toward
zero, hence equal to it exactly when the value is integral. -/
theorem claim_C5_amended (r : Request) (w : ObsWorld) (sk ik : String)
    (filter : ObsWebSocketSceneFilter) (src : ObsSource) :
    ((r.ValidateBasic ik).1 = true → (r.RequestData.get ik).isNumber = true →
      (((r.RequestData.get ik).asNumber < 0 →
        r.ValidateNumber ik (some 0) none
          = (false, [(RequestStatus.RequestParameterOutOfRange, belowComment ik 0)]))
      ∧ (0 ≤ (r.RequestData.get ik).asNumber →
        (r.ValidateNumber ik (some 0) none).1 = true)))
    ∧ (r.ValidateScene w sk filter = ⟨some src, [], 1, 0⟩ →
      (r.ValidateNumber ik (some 0) none).1 = true →
      (r.ValidateSceneItem w sk ik filter).res
        = obs_scene_find_sceneitem_by_id (obs_scene_from_source src)
            ((r.RequestData.get ik).toInt64))
    ∧ (∀ q : ℚ, (Json.num q).toInt64 = q.num.tdiv q.den)
    ∧ (∀ n : ℤ, (Json.num (n : ℚ)).toInt64 = n) := by
  refine ⟨?_, ?_, fun q => rfl, fun n => ?_⟩
  · intro hb ht
    refine ⟨fun h1 => validateNumber_below r ik 0 none hb ht h1, fun h0 => ?_⟩
    rw [validateNumber_def_some_none, if_neg (by simp [hb]), if_neg (by simp [ht]),
      if_neg (not_lt.mpr h0)]
  · intro hscene hn
    unfold Request.ValidateSceneItem
    rw [hscene]
    dsimp only
    rw [if_neg (by simp [hn])]
    cases hm : obs_scene_find_sceneitem_by_id (obs_scene_from_source src)
        ((r.RequestData.get ik).toInt64) with
    | none => rfl
    | some it => rfl
  · simp [Json.toInt64]

/-- Witness for the amended claim C5: a negative id is rejected below the
minimum and an in-range id of an existing item resolves through truncation. -/
theorem claim_C5_amended_witness :
    reqSceneNeg1.ValidateNumber "sceneItemId" (some 0) none
      = (false, [(RequestStatus.RequestParameterOutOfRange,
          belowComment "sceneItemId" 0)]) :=
  (((claim_C5_amended reqSceneNeg1 ⟨[]⟩ "sceneName" "sceneItemId"
    ObsWebSocketSceneFilter.SceneOnly ⟨"S", ObsSourceType.scene, false, []⟩).1
    (by decide) (by decide)).1 (by decide))

end ObsWs
